import Mathlib

/-!
Verification of the Airspace Copilot MCP server and its tool-calling agents.

The Python sources (`server.py`, `agents.py`) are shallowly embedded:
dictionaries become structures with `Option` fields (a `TypedDict` with
`total=False` may omit any key), Python floats become rationals, Python's
truthiness-based `or` defaulting is modelled explicitly, and the two external
collaborators (the n8n snapshot webhook and the Groq completion service) are
modelled as explicit inputs: the webhook as a `Payload` argument and the
completion service as a script of responses consumed in order.
-/

namespace Airspace

/-- Python `str.strip()`: remove whitespace from both ends. -/
def pyStrip (s : String) : String :=
  ⟨((s.data.dropWhile Char.isWhitespace).reverse.dropWhile Char.isWhitespace).reverse⟩

/-- Python `str.upper()` (ASCII case fold, as used for callsigns). -/
def pyUpper (s : String) : String :=
  ⟨s.data.map Char.toUpper⟩

/-- Python `x or d` on an optional string: `None` and `""` are falsy. -/
def pyOrStr (x : Option String) (d : String) : String :=
  match x with
  | none => d
  | some s => if s = "" then d else s

/-- Python `x or d` on an optional float (modelled as `ℚ`): `None` and `0.0` are falsy. -/
def pyOrNum (x : Option ℚ) (d : ℚ) : ℚ :=
  match x with
  | none => d
  | some v => if v = 0 then d else v

/-- `Flight` from `server.py`: a `TypedDict` with `total=False`, so every
field may be absent; absence and an explicit `null` both map to `none`. -/
structure Flight where
  icao24 : Option String := none
  callsign : Option String := none
  origin_country : Option String := none
  time_position : Option Int := none
  last_contact : Option Int := none
  longitude : Option ℚ := none
  latitude : Option ℚ := none
  baro_altitude : Option ℚ := none
  on_ground : Option Bool := none
  velocity : Option ℚ := none
  true_track : Option ℚ := none
  vertical_rate : Option ℚ := none
  geo_altitude : Option ℚ := none
  squawk : Option String := none
  spi : Option Bool := none
  position_source : Option Int := none
deriving DecidableEq, Repr

/-- The JSON body returned by the n8n webhook before `_fetch_snapshot`
backfills defaults: `region`, `flight_count` and `flights` may be absent. -/
structure Payload where
  region : Option String := none
  snapshot_time : Int := 0
  fetched_at_iso : String := ""
  flight_count : Option Int := none
  flights : Option (List Flight) := none
deriving DecidableEq, Repr

/-- `Snapshot` as produced by `_fetch_snapshot` (after the two `setdefault`
calls `region` and `flight_count` are present; `flights` is still read with
`.get("flights", [])` downstream). -/
structure Snapshot where
  region : String
  snapshot_time : Int
  fetched_at_iso : String
  flight_count : Int
  flights : Option (List Flight)
deriving DecidableEq, Repr

/-- `REGION_WEBHOOKS` keys: only `region1` is configured by default. -/
def REGION_WEBHOOKS : List String := ["region1"]

/-- `_fetch_snapshot` in `server.py`: reject unknown regions, then take the
upstream payload and `setdefault` the `region` and `flight_count` keys
(`flight_count` defaults to `len(data.get("flights", []))`). The network
call itself is external; its decoded body is the `payload` argument. -/
def fetch_snapshot (region : String) (payload : Payload) : Except String Snapshot :=
  if region ∉ REGION_WEBHOOKS then
    .error ("Unknown region '" ++ region ++ "'. Known regions: region1")
  else
    .ok { region := payload.region.getD region
          snapshot_time := payload.snapshot_time
          fetched_at_iso := payload.fetched_at_iso
          flight_count := payload.flight_count.getD (Int.ofNat (payload.flights.getD []).length)
          flights := payload.flights }

/-- `flights_list_region_snapshot`: identity transform of the fetcher output. -/
def flights_list_region_snapshot (region : String) (payload : Payload) : Except String Snapshot :=
  fetch_snapshot region payload

/-- `FlightLookupResult` from `server.py`. -/
structure FlightLookupResult where
  region : String
  snapshot_time : Int
  fetched_at_iso : String
  flight : Option Flight
  message : String
deriving DecidableEq, Repr

/-- The normalisation applied to the query callsign: `callsign.strip().upper()`. -/
def normalizeQuery (callsign : String) : String :=
  pyUpper (pyStrip callsign)

/-- The normalisation applied to a stored callsign:
`(f.get("callsign") or "").strip().upper()`. -/
def storedCallsign (f : Flight) : String :=
  pyUpper (pyStrip (pyOrStr f.callsign ""))

/-- The `for`/`break` scan in `flights_get_by_callsign`: first flight whose
normalised callsign equals the target, in snapshot order. -/
def findByTarget (target : String) : List Flight → Option Flight
  | [] => none
  | f :: rest => if storedCallsign f = target then some f else findByTarget target rest

/-- `flights_get_by_callsign` in `server.py`, given the fetched snapshot. -/
def flights_get_by_callsign (callsign : String) (region : String) (snapshot : Snapshot) :
    FlightLookupResult :=
  let target := normalizeQuery callsign
  let found := findByTarget target (snapshot.flights.getD [])
  match found with
  | none =>
      { region := snapshot.region
        snapshot_time := snapshot.snapshot_time
        fetched_at_iso := snapshot.fetched_at_iso
        flight := none
        message := "No flight with callsign '" ++ callsign ++ "' found in " ++ region }
  | some f =>
      { region := snapshot.region
        snapshot_time := snapshot.snapshot_time
        fetched_at_iso := snapshot.fetched_at_iso
        flight := some f
        message := "Found flight " ++ callsign ++ " in " ++ region }

/-- `Alert` from `server.py`. -/
structure Alert where
  flight : Flight
  reason : String
  severity : String
deriving DecidableEq, Repr

/-- `AlertResult` from `server.py`. -/
structure AlertResult where
  region : String
  snapshot_time : Int
  fetched_at_iso : String
  alert_count : Int
  alerts : List Alert
deriving DecidableEq, Repr

/-- `v = f.get("velocity") or 0.0`. -/
def velocityReading (f : Flight) : ℚ := pyOrNum f.velocity 0

/-- `alt = f.get("geo_altitude") or f.get("baro_altitude") or 0.0`. -/
def altitudeReading (f : Flight) : ℚ :=
  pyOrNum f.geo_altitude (pyOrNum f.baro_altitude 0)

/-- `vr = f.get("vertical_rate") or 0.0`. -/
def verticalRateReading (f : Flight) : ℚ := pyOrNum f.vertical_rate 0

/-- The rule evaluation for one flight in `alerts_list_active`: the defaulted
readings `v`, `alt`, `vr`, then the accumulated `reasons` list and the
`severity` variable (initially `"info"`, set to `"warning"` by each rule). -/
def evalFlight (f : Flight) : List String × String :=
  let v := velocityReading f
  let alt := altitudeReading f
  let vr := verticalRateReading f
  let rs0 : List String := []
  let sev0 := "info"
  let (rs1, sev1) :=
    if alt > 8000 ∧ v < 100 then (rs0 ++ ["Unusually low speed at high altitude"], "warning")
    else (rs0, sev0)
  let (rs2, sev2) :=
    if vr < -20 then (rs1 ++ ["Very high descent rate"], "warning")
    else if vr > 20 then (rs1 ++ ["Very high climb rate"], "warning")
    else (rs1, sev1)
  (rs2, sev2)

/-- The `if reasons:` guard: a flight contributes an alert only when at least
one rule fired; the reasons are joined with `"; "`. -/
def alertFor (f : Flight) : Option Alert :=
  if (evalFlight f).1 = [] then none
  else some { flight := f
              reason := String.intercalate "; " (evalFlight f).1
              severity := (evalFlight f).2 }

/-- The alert-accumulating loop over the snapshot's flights, in order. -/
def alertsOf : List Flight → List Alert
  | [] => []
  | f :: rest =>
      match alertFor f with
      | some a => a :: alertsOf rest
      | none => alertsOf rest

/-- `alerts_list_active` in `server.py`, given the fetched snapshot. -/
def alerts_list_active (snapshot : Snapshot) : AlertResult :=
  let alerts := alertsOf (snapshot.flights.getD [])
  { region := snapshot.region
    snapshot_time := snapshot.snapshot_time
    fetched_at_iso := snapshot.fetched_at_iso
    alert_count := Int.ofNat alerts.length
    alerts := alerts }

/-! ## agents.py: tool registry, agent loop, roles, orchestrator -/

/-- A tool-call request produced by the completion service: name plus
JSON-encoded arguments, tagged with a correlation id. -/
structure ToolCall where
  id : String
  name : String
  arguments : String
deriving DecidableEq, Repr

/-- One completion-service response: free-text content plus a (possibly
empty) list of tool-call requests. -/
structure ModelResponse where
  content : String
  tool_calls : List ToolCall
deriving DecidableEq, Repr

/-- A tool result as placed into a tool-role message: either the serialized
tool payload, or the `{"error": message}` object. -/
inductive ToolResult where
  | payload (body : String)
  | error (msg : String)
deriving DecidableEq, Repr

/-- A conversation message. The assistant message carries the tool calls it
requested; a tool message carries the correlation id, the tool name and the
serialized result. -/
inductive Message where
  | system (content : String)
  | user (content : String)
  | assistant (content : String) (tool_calls : List ToolCall)
  | tool (tool_call_id : String) (name : String) (content : ToolResult)
deriving DecidableEq, Repr

/-- Tool names registered in `TOOLS` / dispatched by `execute_tool`. -/
def TOOL_NAMES : List String :=
  ["flights_list_region_snapshot", "flights_get_by_callsign", "alerts_list_active"]

/-- The environment in which a dispatched tool runs: each tool call hits the
network, so its outcome (serialized payload, or a raised exception's message)
is an input to the model, keyed by tool name and argument string. -/
def DispatchEnv := String → String → Except String String

/-- The world threaded through a run: the completion-service script still to
be consumed, the number of completion calls made so far, and the trace of
`execute_tool` dispatches actually performed. -/
structure World where
  script : List ModelResponse
  completionCalls : Nat
  dispatched : List (String × String)
deriving DecidableEq, Repr

/-- One `client().chat.completions.create(...)` call: consume the next
scripted response. An exhausted script models a completion-service failure,
which is fatal (raised to the caller). -/
def completionCall (w : World) : Except String (ModelResponse × World) :=
  match w.script with
  | [] => .error "completion service failure"
  | r :: rest =>
      .ok (r, { script := rest
                completionCalls := w.completionCalls + 1
                dispatched := w.dispatched })

/-- The per-call body of the tool-execution loop in `run_tool_calling_chat`:
a name outside the allow-list is rejected with a structured error and never
dispatched; otherwise `execute_tool` runs and any exception is caught and
converted to `{"error": str(e)}`. Returns the tool result together with the
dispatch-trace contribution. -/
def runOneCall (allowed_tools : Option (List String)) (env : DispatchEnv) (c : ToolCall) :
    ToolResult × List (String × String) :=
  let dispatch : ToolResult × List (String × String) :=
    match env c.name c.arguments with
    | .ok body => (ToolResult.payload body, [(c.name, c.arguments)])
    | .error e => (ToolResult.error e, [(c.name, c.arguments)])
  match allowed_tools with
  | some al =>
      if c.name ∉ al then
        (ToolResult.error ("Tool " ++ c.name ++ " is not allowed for this agent."), [])
      else dispatch
  | none => dispatch

/-- The `for call in tool_calls:` loop: execute each call in order, append
one tool-role message per call correlated by its id, and accumulate the
dispatch trace. -/
def execToolCalls (allowed_tools : Option (List String)) (env : DispatchEnv) :
    List ToolCall → List Message × List (String × String)
  | [] => ([], [])
  | c :: rest =>
      let (result, disp) := runOneCall allowed_tools env c
      let (ms, ds) := execToolCalls allowed_tools env rest
      (Message.tool c.id c.name result :: ms, disp ++ ds)

/-- `run_tool_calling_chat` in `agents.py`: first completion call with the
(filtered) tool schemas; if the response carries no tool calls its content is
the answer; otherwise every requested call is executed and a second
completion call produces the answer. Returns the final answer, the final
conversation, and the updated world. -/
def run_tool_calling_chat (system_prompt user_query : String)
    (allowed_tools : Option (List String)) (env : DispatchEnv) (w : World) :
    Except String (String × List Message × World) :=
  let messages : List Message :=
    [Message.system system_prompt, Message.user user_query]
  match completionCall w with
  | .error e => .error e
  | .ok (first, w1) =>
      let messages := messages ++ [Message.assistant first.content first.tool_calls]
      if first.tool_calls = [] then
        .ok (first.content, messages, w1)
      else
        let (toolMsgs, disp) := execToolCalls allowed_tools env first.tool_calls
        let messages := messages ++ toolMsgs
        let w2 : World :=
          { script := w1.script
            completionCalls := w1.completionCalls
            dispatched := w1.dispatched ++ disp }
        match completionCall w2 with
        | .error e => .error e
        | .ok (final, w3) => .ok (final.content, messages, w3)

/-- `traveler_agent`: allow-list restricted to callsign lookup. -/
def traveler_agent (question : String) (env : DispatchEnv) (w : World) :
    Except String (String × List Message × World) :=
  run_tool_calling_chat
    ("You are a traveler support assistant. Help passengers understand where their flight is, its altitude, speed, and whether anything looks unusual. Use the flights_get_by_callsign tool when needed.")
    question (some ["flights_get_by_callsign"]) env w

/-- `ops_agent`: allow-list restricted to the snapshot and alert tools. -/
def ops_agent (question : String) (env : DispatchEnv) (w : World) :
    Except String (String × List Message × World) :=
  run_tool_calling_chat
    ("You are an airline operations specialist monitoring airspace safety. Use flights_list_region_snapshot and alerts_list_active to analyze current traffic, highlight anomalies, and propose actions.")
    question (some ["flights_list_region_snapshot", "alerts_list_active"]) env w

/-- `traveler_with_ops` in `agents.py`: traveler role, then ops role, then a
final synthesis completion call with no tools. A failure in either sub-agent
propagates. -/
def traveler_with_ops (callsign passenger_question : String) (env : DispatchEnv) (w : World) :
    Except String (String × World) :=
  let base_question :=
    "My flight " ++ callsign ++ " is in region1. " ++ passenger_question ++
      " Please use tools to check this specific flight."
  match traveler_agent base_question env w with
  | .error e => .error e
  | .ok (_traveler_reply, _, w1) =>
      let ops_prompt :=
        "Consider flight " ++ callsign ++ " in region1. Give a short situation report focusing on nearby anomalies and anything that could worry the passenger."
      match ops_agent ops_prompt env w1 with
      | .error e => .error e
      | .ok (_ops_reply, _, w2) =>
          match completionCall w2 with
          | .error e => .error e
          | .ok (final, w3) => .ok (final.content, w3)

/-! ## Specification-side closed forms and concrete example inputs -/

/-- Specification of one tool result, following §4.3/§4.4 of the spec: a name
outside the allow-list yields a structured error and is never executed; an
allowed name is dispatched and an execution fault becomes `{error: message}`. -/
def toolResultSpec (al : List String) (env : DispatchEnv) (c : ToolCall) : ToolResult :=
  if c.name ∈ al then
    match env c.name c.arguments with
    | .ok body => ToolResult.payload body
    | .error e => ToolResult.error e
  else
    ToolResult.error ("Tool " ++ c.name ++ " is not allowed for this agent.")

/-- Specification of the dispatch trace: exactly the allowed calls, in order,
are handed to `execute_tool`. -/
def dispatchTraceSpec (al : List String) (calls : List ToolCall) : List (String × String) :=
  (calls.filter (fun c => decide (c.name ∈ al))).map (fun c => (c.name, c.arguments))

/-- Upstream payload that omits `flight_count` (backfilled by the fetcher). -/
def examplePayloadNoCount : Payload :=
  { flights := some [{ callsign := some "PIA293" }] }

/-- Upstream payload that supplies `flight_count := 5` yet an empty flight list. -/
def examplePayloadWithCount : Payload :=
  { flight_count := some 5, flights := some [] }

/-- The snapshot the fetcher returns for `examplePayloadWithCount`. -/
def exampleSnapshotWithCount : Snapshot :=
  { region := "region1", snapshot_time := 0, fetched_at_iso := ""
    flight_count := 5, flights := some [] }

/-- The snapshot the fetcher returns for `examplePayloadNoCount`. -/
def exampleSnapshotNoCount : Snapshot :=
  { region := "region1", snapshot_time := 0, fetched_at_iso := ""
    flight_count := 1, flights := some [{ callsign := some "PIA293" }] }

/-- A snapshot holding a single flight with callsign `"PIA293"`. -/
def exampleSnapshotPIA : Snapshot :=
  { region := "region1", snapshot_time := 1, fetched_at_iso := "t"
    flight_count := 1, flights := some [{ callsign := some "PIA293" }] }

/-- A snapshot with no flights at all. -/
def exampleSnapshotEmpty : Snapshot :=
  { region := "region1", snapshot_time := 1, fetched_at_iso := "t"
    flight_count := 0, flights := some [] }

/-- A flight whose geometric altitude is present but zero while the
barometric altitude is 9000 and the speed is low. -/
def exampleFlightGeoZero : Flight :=
  { velocity := some 50, geo_altitude := some 0, baro_altitude := some 9000 }

/-- A flight matching the C7 scenario: altitude 9000, velocity 50,
vertical rate −25. -/
def exampleFlightC7 : Flight :=
  { velocity := some 50, geo_altitude := some 9000, vertical_rate := some (-25) }

/-- A flight triggering only the climb-rate rule. -/
def exampleFlightClimb : Flight :=
  { vertical_rate := some 25 }

/-- A snapshot holding the single climbing flight. -/
def exampleSnapshotClimb : Snapshot :=
  { region := "region1", snapshot_time := 1, fetched_at_iso := "t"
    flight_count := 1, flights := some [exampleFlightClimb] }

/-- A snapshot holding the C7 flight between two quiet flights. -/
def exampleSnapshotC7 : Snapshot :=
  { region := "region1", snapshot_time := 1, fetched_at_iso := "t"
    flight_count := 3
    flights := some [{ callsign := some "AAA" }, exampleFlightC7, { callsign := some "BBB" }] }

/-- A snapshot whose first flight has a named callsign and whose second
flight has none. -/
def exampleSnapshotNoCallsign : Snapshot :=
  { region := "region1", snapshot_time := 1, fetched_at_iso := "t"
    flight_count := 2
    flights := some [{ callsign := some "ABC" }, { icao24 := some "deadbf" }] }

/-- A flight with every field unknown. -/
def exampleFlightUnknown : Flight := {}

/-- A dispatch environment in which the callsign tool succeeds and every
other tool raises. -/
def exampleEnv : DispatchEnv := fun n _ =>
  if n = "flights_get_by_callsign" then .ok "body" else .error "boom"

/-- Three tool calls: one outside the traveler allow-list, one allowed that
succeeds, one allowed whose execution raises. -/
def exampleCalls : List ToolCall :=
  [{ id := "id1", name := "alerts_list_active", arguments := "{}" },
   { id := "id2", name := "flights_get_by_callsign", arguments := "{}" },
   { id := "id3", name := "flights_list_region_snapshot", arguments := "{}" }]

/-- An allow-list admitting the lookup and snapshot tools only. -/
def exampleAllowList : List String :=
  ["flights_get_by_callsign", "flights_list_region_snapshot"]

/-- A first model response requesting `exampleCalls`. -/
def exampleFirstResponse : ModelResponse := { content := "", tool_calls := exampleCalls }

/-- A final model response with plain content. -/
def exampleFinalResponse : ModelResponse := { content := "final answer", tool_calls := [] }

/-- A world whose script answers the two completion calls of one loop run. -/
def exampleWorldC2 : World :=
  { script := [exampleFirstResponse, exampleFinalResponse], completionCalls := 0, dispatched := [] }

/-- A script in which the traveler role uses one round of tool use and the
ops role answers directly: 4 completion calls in total. -/
def exampleScriptOneRound : List ModelResponse :=
  [{ content := "", tool_calls := [{ id := "c1", name := "flights_get_by_callsign", arguments := "{}" }] },
   { content := "traveler answer", tool_calls := [] },
   { content := "ops answer", tool_calls := [] },
   { content := "final", tool_calls := [] }]

/-- A script in which neither sub-role uses tools: 3 completion calls. -/
def exampleScriptNoTools : List ModelResponse :=
  [{ content := "traveler answer", tool_calls := [] },
   { content := "ops answer", tool_calls := [] },
   { content := "final", tool_calls := [] }]

/-! ## Helper lemmas -/

lemma findByTarget_eq_none (t : String) (l : List Flight)
    (h : ∀ f ∈ l, storedCallsign f ≠ t) : findByTarget t l = none := by
  induction l with
  | nil => rfl
  | cons f rest ih =>
      unfold findByTarget
      rw [if_neg (h f (by simp))]
      exact ih fun g hg => h g (by simp [hg])

lemma findByTarget_isSome (t : String) (l : List Flight)
    (h : ∃ f ∈ l, storedCallsign f = t) : (findByTarget t l).isSome := by
  induction l with
  | nil => simp at h
  | cons f rest ih =>
      unfold findByTarget
      by_cases hf : storedCallsign f = t
      · simp [hf]
      · rw [if_neg hf]
        rcases h with ⟨g, hg, hgt⟩
        rcases List.mem_cons.mp hg with hgf | hgr
        · exact absurd (hgf ▸ hgt) hf
        · exact ih ⟨g, hgr, hgt⟩

lemma findByTarget_append_first (t : String) (pre post : List Flight) (f : Flight)
    (hpre : ∀ g ∈ pre, storedCallsign g ≠ t) (hf : storedCallsign f = t) :
    findByTarget t (pre ++ f :: post) = some f := by
  induction pre with
  | nil => simp [findByTarget, hf]
  | cons g rest ih =>
      have hg : storedCallsign g ≠ t := hpre g (by simp)
      simp only [List.cons_append, findByTarget, if_neg hg]
      exact ih fun x hx => hpre x (by simp [hx])

lemma evalFlight_eq (f : Flight) :
    evalFlight f =
      ((if altitudeReading f > 8000 ∧ velocityReading f < 100 then
          ["Unusually low speed at high altitude"] else []) ++
        (if verticalRateReading f < -20 then ["Very high descent rate"]
          else if verticalRateReading f > 20 then ["Very high climb rate"] else []),
        if (altitudeReading f > 8000 ∧ velocityReading f < 100) ∨
            verticalRateReading f < -20 ∨ verticalRateReading f > 20 then "warning"
        else "info") := by
  unfold evalFlight
  by_cases h1 : altitudeReading f > 8000 ∧ velocityReading f < 100 <;>
    by_cases h2 : verticalRateReading f < -20 <;>
      by_cases h3 : verticalRateReading f > 20 <;>
        simp [h1, h2, h3]

lemma alertFor_some (f : Flight) (a : Alert) (h : alertFor f = some a) :
    a.flight = f ∧ a.severity = "warning" ∧ a.reason ≠ "" := by
  unfold alertFor at h
  split at h
  · exact absurd h (by simp)
  · rename_i hne
    rw [Option.some.injEq] at h
    subst h
    rw [evalFlight_eq] at hne ⊢
    refine ⟨rfl, ?_, ?_⟩ <;>
      by_cases h1 : altitudeReading f > 8000 ∧ velocityReading f < 100 <;>
        by_cases h2 : verticalRateReading f < -20 <;>
          by_cases h3 : verticalRateReading f > 20 <;>
            simp [h1, h2, h3] at hne ⊢ <;> decide

lemma alertsOf_eq_filterMap (l : List Flight) : alertsOf l = l.filterMap alertFor := by
  induction l with
  | nil => rfl
  | cons f rest ih =>
      unfold alertsOf
      cases h : alertFor f <;> simp [List.filterMap_cons, h, ih]

lemma alertsOf_append (l₁ l₂ : List Flight) :
    alertsOf (l₁ ++ l₂) = alertsOf l₁ ++ alertsOf l₂ := by
  simp [alertsOf_eq_filterMap]

lemma alertsOf_flights_sublist (l : List Flight) :
    ((alertsOf l).map Alert.flight).Sublist l := by
  induction l with
  | nil => simp [alertsOf]
  | cons f rest ih =>
      unfold alertsOf
      cases h : alertFor f with
      | none => exact ih.cons f
      | some a =>
          have ha : a.flight = f := (alertFor_some f a h).1
          simpa [ha] using ih.cons₂ f

lemma execToolCalls_some_eq (al : List String) (env : DispatchEnv) (l : List ToolCall) :
    execToolCalls (some al) env l =
      (l.map (fun c => Message.tool c.id c.name (toolResultSpec al env c)),
        dispatchTraceSpec al l) := by
  induction l with
  | nil => rfl
  | cons c rest ih =>
      unfold execToolCalls
      rw [ih]
      unfold runOneCall toolResultSpec dispatchTraceSpec
      by_cases h : c.name ∈ al
      · cases he : env c.name c.arguments <;> simp [h, he, List.filter_cons]
      · simp [h, List.filter_cons]

/-! ## Claim theorems -/

/-- C1 (counterexample): `_fetch_snapshot` uses `setdefault`, so a payload
that already supplies `flight_count = 5` with an empty flight list yields a
snapshot whose `flight_count` is 5 while its flight list has length 0 — the
claimed invariant fails when the upstream value is present. -/
theorem C1_counterexample :
    fetch_snapshot "region1" examplePayloadWithCount = .ok exampleSnapshotWithCount ∧
    exampleSnapshotWithCount.flight_count ≠
      Int.ofNat (exampleSnapshotWithCount.flights.getD []).length := by
  constructor
  · rfl
  · decide

/-- C1 (amended): for every snapshot the fetcher returns, `flight_count`
equals the length of the flight list whenever the upstream payload omitted
`flight_count`; an upstream-supplied value is passed through unchanged. -/
theorem C1_flight_count (region : String) (p : Payload) (s : Snapshot)
    (h : fetch_snapshot region p = .ok s) :
    (p.flight_count = none → s.flight_count = Int.ofNat (s.flights.getD []).length) ∧
    (p.flight_count.isSome → some s.flight_count = p.flight_count) := by
  unfold fetch_snapshot at h
  split at h
  · exact absurd h (by simp)
  · rw [Except.ok.injEq] at h
    subst h
    refine ⟨fun hn => ?_, fun hs => ?_⟩
    · simp [hn]
    · rcases Option.isSome_iff_exists.mp hs with ⟨n, hn⟩
      simp [hn]

/-- C1 (witness): a concrete payload without `flight_count`. -/
theorem C1_flight_count_witness :
    (examplePayloadNoCount.flight_count = none →
      exampleSnapshotNoCount.flight_count =
        Int.ofNat (exampleSnapshotNoCount.flights.getD []).length) ∧
    (examplePayloadNoCount.flight_count.isSome →
      some exampleSnapshotNoCount.flight_count = examplePayloadNoCount.flight_count) :=
  C1_flight_count "region1" examplePayloadNoCount exampleSnapshotNoCount rfl

/-- C8: when no flight's normalized callsign matches the normalized query —
in particular on an empty snapshot — the lookup returns `flight = none` with
the explanatory not-found message (a valid result, not an exception: the
embedded lookup is a total function on snapshots). -/
theorem C8_not_found (callsign region : String) (s : Snapshot)
    (h : ∀ f ∈ s.flights.getD [], storedCallsign f ≠ normalizeQuery callsign) :
    (flights_get_by_callsign callsign region s).flight = none ∧
    (flights_get_by_callsign callsign region s).message =
      "No flight with callsign '" ++ callsign ++ "' found in " ++ region := by
  have hn : findByTarget (normalizeQuery callsign) (s.flights.getD []) = none :=
    findByTarget_eq_none _ _ h
  simp [flights_get_by_callsign, hn]

/-- C8 (witness): lookup of `"PIA293"` on the empty snapshot. -/
theorem C8_not_found_witness :
    (flights_get_by_callsign "PIA293" "region1" exampleSnapshotEmpty).flight = none ∧
    (flights_get_by_callsign "PIA293" "region1" exampleSnapshotEmpty).message =
      "No flight with callsign '" ++ "PIA293" ++ "' found in " ++ "region1" :=
  C8_not_found "PIA293" "region1" exampleSnapshotEmpty (by decide)

/-- C10: a query that normalizes to the empty string matches the first
flight in snapshot order whose callsign is missing, null, or
whitespace-only, and that flight is returned as a non-null result. -/
theorem C10_empty_query_matches (callsign region : String) (s : Snapshot)
    (pre post : List Flight) (f : Flight)
    (hq : normalizeQuery callsign = "")
    (hs : s.flights = some (pre ++ f :: post))
    (hpre : ∀ g ∈ pre, storedCallsign g ≠ "")
    (hf : f.callsign = none ∨ ∃ w, f.callsign = some w ∧ pyStrip w = "") :
    (flights_get_by_callsign callsign region s).flight = some f := by
  have hsf : storedCallsign f = "" := by
    rcases hf with hnone | ⟨w, hw, hws⟩
    · simp [storedCallsign, hnone, pyOrStr]
      decide
    · unfold storedCallsign pyOrStr
      rw [hw]
      by_cases hwe : w = ""
      · simp [hwe]
        decide
      · simp [hwe, hws]
        decide
  have hfind : findByTarget (normalizeQuery callsign) (s.flights.getD []) = some f := by
    rw [hq, hs]
    exact findByTarget_append_first "" pre post f hpre hsf
  simp [flights_get_by_callsign, hfind]

/-- C10 (witness): a whitespace-only query against a snapshot whose second
flight has no callsign field. -/
theorem C10_empty_query_matches_witness :
    (flights_get_by_callsign "   " "region1" exampleSnapshotNoCallsign).flight =
      some { icao24 := some "deadbf" } :=
  C10_empty_query_matches "   " "region1" exampleSnapshotNoCallsign
    [{ callsign := some "ABC" }] [] { icao24 := some "deadbf" }
    (by decide) rfl (by decide) (Or.inl rfl)

/-- C3 (counterexample): the lookup result's `message` field embeds the raw
query string, so looking up `" pia293 "` and `"PIA293"` against a snapshot
holding a flight with callsign `"PIA293"` returns result structures that are
not equal (both messages shown explicitly). -/
theorem C3_counterexample :
    flights_get_by_callsign " pia293 " "region1" exampleSnapshotPIA ≠
      flights_get_by_callsign "PIA293" "region1" exampleSnapshotPIA ∧
    (flights_get_by_callsign " pia293 " "region1" exampleSnapshotPIA).message =
      "Found flight  pia293  in region1" ∧
    (flights_get_by_callsign "PIA293" "region1" exampleSnapshotPIA).message =
      "Found flight PIA293 in region1" := by
  refine ⟨by decide, rfl, rfl⟩

/-- C3 (amended): against any snapshot containing a flight with callsign
`"PIA293"`, looking up `" pia293 "` and `"PIA293"` yields results agreeing
on every field except `message` — in particular the same non-null `flight` —
while each `message` echoes the raw query string verbatim. -/
theorem C3_case_whitespace_insensitive (r : String) (s : Snapshot)
    (h : ∃ f ∈ s.flights.getD [], f.callsign = some "PIA293") :
    (flights_get_by_callsign " pia293 " r s).flight =
      (flights_get_by_callsign "PIA293" r s).flight ∧
    (flights_get_by_callsign " pia293 " r s).flight.isSome = true ∧
    (flights_get_by_callsign " pia293 " r s).region =
      (flights_get_by_callsign "PIA293" r s).region ∧
    (flights_get_by_callsign " pia293 " r s).snapshot_time =
      (flights_get_by_callsign "PIA293" r s).snapshot_time ∧
    (flights_get_by_callsign " pia293 " r s).fetched_at_iso =
      (flights_get_by_callsign "PIA293" r s).fetched_at_iso ∧
    (flights_get_by_callsign " pia293 " r s).message = "Found flight  pia293  in " ++ r ∧
    (flights_get_by_callsign "PIA293" r s).message = "Found flight PIA293 in " ++ r := by
  obtain ⟨f, hf, hcs⟩ := h
  have hsc : storedCallsign f = "PIA293" := by
    unfold storedCallsign pyOrStr
    rw [hcs]
    decide
  have hfs : (findByTarget "PIA293" (s.flights.getD [])).isSome :=
    findByTarget_isSome _ _ ⟨f, hf, hsc⟩
  rcases Option.isSome_iff_exists.mp hfs with ⟨g, hg⟩
  have e1 : normalizeQuery " pia293 " = "PIA293" := by decide
  have e2 : normalizeQuery "PIA293" = "PIA293" := by decide
  simp [flights_get_by_callsign, e1, e2, hg]

/-- C3 (witness): the concrete one-flight snapshot. -/
theorem C3_case_whitespace_insensitive_witness :
    (flights_get_by_callsign " pia293 " "region1" exampleSnapshotPIA).flight =
      (flights_get_by_callsign "PIA293" "region1" exampleSnapshotPIA).flight ∧
    (flights_get_by_callsign " pia293 " "region1" exampleSnapshotPIA).flight.isSome = true ∧
    (flights_get_by_callsign " pia293 " "region1" exampleSnapshotPIA).region =
      (flights_get_by_callsign "PIA293" "region1" exampleSnapshotPIA).region ∧
    (flights_get_by_callsign " pia293 " "region1" exampleSnapshotPIA).snapshot_time =
      (flights_get_by_callsign "PIA293" "region1" exampleSnapshotPIA).snapshot_time ∧
    (flights_get_by_callsign " pia293 " "region1" exampleSnapshotPIA).fetched_at_iso =
      (flights_get_by_callsign "PIA293" "region1" exampleSnapshotPIA).fetched_at_iso ∧
    (flights_get_by_callsign " pia293 " "region1" exampleSnapshotPIA).message =
      "Found flight  pia293  in " ++ "region1" ∧
    (flights_get_by_callsign "PIA293" "region1" exampleSnapshotPIA).message =
      "Found flight PIA293 in " ++ "region1" :=
  C3_case_whitespace_insensitive "region1" exampleSnapshotPIA
    ⟨{ callsign := some "PIA293" }, by decide, rfl⟩

/-- C4: every alert emitted by `alerts_list_active` has a non-empty reason
and severity `"warning"`; severity `"info"` never appears because a flight
with zero triggered rules produces no alert at all (the `if reasons:` guard). -/
theorem C4_alerts_warning_nonempty (s : Snapshot) (a : Alert)
    (h : a ∈ (alerts_list_active s).alerts) :
    a.reason ≠ "" ∧ a.severity = "warning" := by
  have hm : a ∈ alertsOf (s.flights.getD []) := h
  rw [alertsOf_eq_filterMap] at hm
  rcases List.mem_filterMap.mp hm with ⟨f, _, hfa⟩
  have := alertFor_some f a hfa
  exact ⟨this.2.2, this.2.1⟩

/-- C4 (witness): the alert produced by the climbing flight. -/
theorem C4_alerts_warning_nonempty_witness :
    ({ flight := exampleFlightClimb, reason := "Very high climb rate"
       severity := "warning" } : Alert).reason ≠ "" ∧
    ({ flight := exampleFlightClimb, reason := "Very high climb rate"
       severity := "warning" } : Alert).severity = "warning" :=
  C4_alerts_warning_nonempty exampleSnapshotClimb _ (by decide)

/-- C5 (counterexample): Python's `or` chain treats a present-but-zero
geometric altitude as falsy, so for a flight with `geo_altitude = 0` and
`baro_altitude = 9000` the high-altitude rule uses the barometric value and
fires — the geometric altitude (0 > 8000 is false) is not the one used. -/
theorem C5_counterexample :
    exampleFlightGeoZero.geo_altitude = some 0 ∧
    exampleFlightGeoZero.baro_altitude = some 9000 ∧
    altitudeReading exampleFlightGeoZero = 9000 ∧
    ¬ ((0 : ℚ) > 8000) ∧
    evalFlight exampleFlightGeoZero = (["Unusually low speed at high altitude"], "warning") := by
  refine ⟨rfl, rfl, by decide, by decide, by decide⟩

/-- C5 (amended): missing velocity, altitude and vertical rate each evaluate
as 0; when both altitudes are present the geometric one is used unless it is
0, in which case the barometric reading is used (Python truthiness of `or`). -/
theorem C5_reading_defaults (f : Flight) :
    (f.velocity = none → velocityReading f = 0) ∧
    (f.vertical_rate = none → verticalRateReading f = 0) ∧
    (f.geo_altitude = none → f.baro_altitude = none → altitudeReading f = 0) ∧
    (f.geo_altitude.isSome → f.geo_altitude ≠ some 0 →
      altitudeReading f = f.geo_altitude.getD 0) ∧
    (f.geo_altitude = some 0 → altitudeReading f = pyOrNum f.baro_altitude 0) := by
  refine ⟨fun h => by simp [velocityReading, pyOrNum, h],
          fun h => by simp [verticalRateReading, pyOrNum, h],
          fun h1 h2 => by simp [altitudeReading, pyOrNum, h1, h2],
          fun h1 h2 => ?_,
          fun h => by simp [altitudeReading, pyOrNum, h]⟩
  rcases Option.isSome_iff_exists.mp h1 with ⟨v, hv⟩
  have hvne : v ≠ 0 := by
    rintro rfl
    exact h2 hv
  simp [altitudeReading, pyOrNum, hv, hvne]

/-- C5 (witness): the all-unknown flight evaluates every reading to 0. -/
theorem C5_reading_defaults_witness :
    (exampleFlightUnknown.velocity = none → velocityReading exampleFlightUnknown = 0) ∧
    (exampleFlightUnknown.vertical_rate = none → verticalRateReading exampleFlightUnknown = 0) ∧
    (exampleFlightUnknown.geo_altitude = none → exampleFlightUnknown.baro_altitude = none →
      altitudeReading exampleFlightUnknown = 0) ∧
    (exampleFlightUnknown.geo_altitude.isSome → exampleFlightUnknown.geo_altitude ≠ some 0 →
      altitudeReading exampleFlightUnknown = exampleFlightUnknown.geo_altitude.getD 0) ∧
    (exampleFlightUnknown.geo_altitude = some 0 →
      altitudeReading exampleFlightUnknown = pyOrNum exampleFlightUnknown.baro_altitude 0) :=
  C5_reading_defaults exampleFlightUnknown

/-- C7: a flight with altitude 9000, velocity 50 and vertical rate −25
contributes exactly one alert, whose reason joins the low-speed and
high-descent strings, with severity `"warning"`; the climb-rate reason is
absent (descent and climb rules are mutually exclusive per flight). -/
theorem C7_low_speed_and_descent (s : Snapshot) (pre post : List Flight) (f : Flight)
    (hs : s.flights = some (pre ++ f :: post))
    (hv : f.velocity = some 50) (ha : f.geo_altitude = some 9000)
    (hvr : f.vertical_rate = some (-25)) :
    (alerts_list_active s).alerts =
      alertsOf pre ++
        { flight := f
          reason := "Unusually low speed at high altitude; Very high descent rate"
          severity := "warning" } :: alertsOf post ∧
    evalFlight f =
      (["Unusually low speed at high altitude", "Very high descent rate"], "warning") ∧
    "Very high climb rate" ∉ (evalFlight f).1 := by
  have h1 : altitudeReading f = 9000 := by
    unfold altitudeReading pyOrNum
    rw [ha]
    norm_num
  have h2 : velocityReading f = 50 := by
    unfold velocityReading pyOrNum
    rw [hv]
    norm_num
  have h3 : verticalRateReading f = -25 := by
    unfold verticalRateReading pyOrNum
    rw [hvr]
    norm_num
  have hev : evalFlight f =
      (["Unusually low speed at high altitude", "Very high descent rate"], "warning") := by
    rw [evalFlight_eq, h1, h2, h3]
    norm_num
  have halert : alertFor f =
      some { flight := f
             reason := "Unusually low speed at high altitude; Very high descent rate"
             severity := "warning" } := by
    unfold alertFor
    rw [hev]
    norm_num
    decide
  refine ⟨?_, hev, by rw [hev]; decide⟩
  rw [show (alerts_list_active s).alerts = alertsOf (s.flights.getD []) from rfl, hs]
  show alertsOf (pre ++ f :: post) = _
  rw [alertsOf_append]
  congr 1
  simp [alertsOf_eq_filterMap, List.filterMap_cons, halert]

/-- C7 (witness): the three-flight snapshot around the anomalous flight. -/
theorem C7_low_speed_and_descent_witness :
    (alerts_list_active exampleSnapshotC7).alerts =
      alertsOf [{ callsign := some "AAA" }] ++
        { flight := exampleFlightC7
          reason := "Unusually low speed at high altitude; Very high descent rate"
          severity := "warning" } :: alertsOf [{ callsign := some "BBB" }] ∧
    evalFlight exampleFlightC7 =
      (["Unusually low speed at high altitude", "Very high descent rate"], "warning") ∧
    "Very high climb rate" ∉ (evalFlight exampleFlightC7).1 :=
  C7_low_speed_and_descent exampleSnapshotC7
    [{ callsign := some "AAA" }] [{ callsign := some "BBB" }] exampleFlightC7
    rfl rfl rfl rfl

/-- C9: the alert result's `alert_count` equals the length of its alert
list, the alert list is exactly the in-order filter-map of the per-flight
rule evaluation, and the triggering flights of the alerts form a sublist of
the snapshot's flight sequence (same relative order). -/
theorem C9_count_and_order (s : Snapshot) :
    (alerts_list_active s).alert_count = Int.ofNat (alerts_list_active s).alerts.length ∧
    (alerts_list_active s).alerts = (s.flights.getD []).filterMap alertFor ∧
    ((alerts_list_active s).alerts.map Alert.flight).Sublist (s.flights.getD []) :=
  ⟨rfl, alertsOf_eq_filterMap _, alertsOf_flights_sublist _⟩

/-- C2: when the first model response carries tool calls, the agent loop
produces, for each call in the order received, exactly one tool-role message
correlated by its call id whose result follows `toolResultSpec` (allow-list
violations become structured errors without dispatch; execution faults become
`{error: message}`), dispatches exactly the allowed calls (`dispatchTraceSpec`),
and still performs the second completion call, returning its content. -/
theorem C2_tool_loop (sp uq : String) (al : List String) (env : DispatchEnv)
    (w : World) (first final : ModelResponse) (rest : List ModelResponse)
    (hw : w.script = first :: final :: rest) (htc : first.tool_calls ≠ []) :
    run_tool_calling_chat sp uq (some al) env w =
      .ok (final.content,
        Message.system sp :: Message.user uq ::
          Message.assistant first.content first.tool_calls ::
          first.tool_calls.map (fun c => Message.tool c.id c.name (toolResultSpec al env c)),
        { script := rest
          completionCalls := w.completionCalls + 2
          dispatched := w.dispatched ++ dispatchTraceSpec al first.tool_calls }) := by
  unfold run_tool_calling_chat completionCall
  rw [hw]
  simp [htc, execToolCalls_some_eq]

/-- C2 (witness): three concrete tool calls — one outside the allow-list,
one allowed and succeeding, one allowed whose execution raises. -/
theorem C2_tool_loop_witness :
    run_tool_calling_chat "s" "u" (some exampleAllowList) exampleEnv exampleWorldC2 =
      .ok (exampleFinalResponse.content,
        Message.system "s" :: Message.user "u" ::
          Message.assistant exampleFirstResponse.content exampleFirstResponse.tool_calls ::
          exampleFirstResponse.tool_calls.map
            (fun c => Message.tool c.id c.name (toolResultSpec exampleAllowList exampleEnv c)),
        { script := []
          completionCalls := exampleWorldC2.completionCalls + 2
          dispatched := exampleWorldC2.dispatched ++
            dispatchTraceSpec exampleAllowList exampleFirstResponse.tool_calls }) :=
  C2_tool_loop "s" "u" exampleAllowList exampleEnv exampleWorldC2
    exampleFirstResponse exampleFinalResponse [] rfl (by decide)

/-- C6 (counterexample): with the traveler role using exactly one round of
tool use and the ops role none — within "at most one round" each — the
orchestrator performs 4 completion-service calls, not 3. -/
theorem C6_counterexample :
    (exampleScriptOneRound.get? 0).map (fun r => r.tool_calls.length) = some 1 ∧
    (exampleScriptOneRound.get? 2).map (fun r => r.tool_calls.length) = some 0 ∧
    traveler_with_ops "PIA293" "q" exampleEnv
        { script := exampleScriptOneRound, completionCalls := 0, dispatched := [] } =
      .ok ("final",
        { script := [], completionCalls := 4
          dispatched := [("flights_get_by_callsign", "{}")] }) ∧
    (4 : Nat) ≠ 3 :=
  ⟨rfl, rfl, rfl, by decide⟩

/-- C6 (amended): the orchestrator performs exactly 3 completion-service
calls — one inside each sub-role plus the synthesis call — whenever neither
sub-role triggers any tool use; a sub-role that does use tools performs one
additional completion call. -/
theorem C6_three_calls_no_tool_use (callsign question : String) (env : DispatchEnv)
    (w : World) (r1 r2 r3 : ModelResponse) (rest : List ModelResponse)
    (hw : w.script = r1 :: r2 :: r3 :: rest)
    (h1 : r1.tool_calls = []) (h2 : r2.tool_calls = []) :
    traveler_with_ops callsign question env w =
      .ok (r3.content,
        { script := rest, completionCalls := w.completionCalls + 3
          dispatched := w.dispatched }) := by
  unfold traveler_with_ops traveler_agent ops_agent run_tool_calling_chat completionCall
  rw [hw]
  simp [h1, h2]

/-- C6 (witness): a script in which both sub-roles answer directly. -/
theorem C6_three_calls_no_tool_use_witness :
    traveler_with_ops "PIA293" "q" exampleEnv
        { script := exampleScriptNoTools, completionCalls := 0, dispatched := [] } =
      .ok ("final", { script := [], completionCalls := 0 + 3, dispatched := [] }) :=
  C6_three_calls_no_tool_use "PIA293" "q" exampleEnv
    { script := exampleScriptNoTools, completionCalls := 0, dispatched := [] }
    { content := "traveler answer", tool_calls := [] }
    { content := "ops answer", tool_calls := [] }
    { content := "final", tool_calls := [] }
    [] rfl rfl rfl

end Airspace
